import Mathlib

/-!
Shallow embedding of `transmission_interface/differential_transmission.h`
(class `DifferentialTransmission`), over exact rational arithmetic.

The C++ class stores three two-element parameter vectors (actuator
reduction ratios, joint reduction ratios, joint position offsets) and
exposes six conversion operations between actuator space and joint
space.  Each conversion reads two scalars and writes two scalars; here
they are pure functions on pairs of rationals.  The constructor's
validation is modelled as an `Except`-returning smart constructor, and
the pointer-level behaviour of `jointToActuatorPosition` (which must not
write through the caller's joint-position slots) is modelled separately
on an explicit store `Nat -> Rat`.
-/

namespace TransmissionInterface

/-- The parameters frozen at construction: `actuator_reduction_`,
`joint_reduction_` and `joint_offset_`, each a two-element vector in the
C++ class, here a pair.  Component `.1` is index 0, `.2` is index 1. -/
structure DifferentialTransmission where
  actuator_reduction : ℚ × ℚ
  joint_reduction : ℚ × ℚ
  joint_offset : ℚ × ℚ
deriving DecidableEq

/-- Constructor validation, translated from
`DifferentialTransmission::DifferentialTransmission`: first the three
size checks (each vector must have size 2), then the zero checks on the
four reduction values; offsets are copied without any value check.  On
failure the C++ code throws `TransmissionException` (the configuration
error) and no instance exists; here that is `Except.error`. -/
def mkDifferentialTransmission (actuator_reduction joint_reduction joint_offset : List ℚ) :
    Except String DifferentialTransmission :=
  if actuator_reduction.length ≠ 2 ∨ joint_reduction.length ≠ 2 ∨
      joint_offset.length ≠ 2 then
    Except.error "Reduction and offset vectors of a differential transmission must have size 2."
  else if actuator_reduction.getD 0 0 = 0 ∨ actuator_reduction.getD 1 0 = 0 ∨
      joint_reduction.getD 0 0 = 0 ∨ joint_reduction.getD 1 0 = 0 then
    Except.error "Transmission reduction ratios cannot be zero."
  else
    Except.ok
      { actuator_reduction := (actuator_reduction.getD 0 0, actuator_reduction.getD 1 0)
        joint_reduction := (joint_reduction.getD 0 0, joint_reduction.getD 1 0)
        joint_offset := (joint_offset.getD 0 0, joint_offset.getD 1 0) }

/-- `DifferentialTransmission::actuatorToJointEffort`:
`*joint_eff[0] = jr[0] * (*actuator_eff[0] * ar[0] + *actuator_eff[1] * ar[1])`,
`*joint_eff[1] = jr[1] * (*actuator_eff[0] * ar[0] - *actuator_eff[1] * ar[1])`. -/
def actuatorToJointEffort (t : DifferentialTransmission) (actuator_eff : ℚ × ℚ) : ℚ × ℚ :=
  let ar := t.actuator_reduction
  let jr := t.joint_reduction
  (jr.1 * (actuator_eff.1 * ar.1 + actuator_eff.2 * ar.2),
   jr.2 * (actuator_eff.1 * ar.1 - actuator_eff.2 * ar.2))

/-- `DifferentialTransmission::actuatorToJointVelocity`:
`*joint_vel[0] = (*actuator_vel[0] / ar[0] + *actuator_vel[1] / ar[1]) / (2.0 * jr[0])`,
`*joint_vel[1] = (*actuator_vel[0] / ar[0] - *actuator_vel[1] / ar[1]) / (2.0 * jr[1])`. -/
def actuatorToJointVelocity (t : DifferentialTransmission) (actuator_vel : ℚ × ℚ) : ℚ × ℚ :=
  let ar := t.actuator_reduction
  let jr := t.joint_reduction
  ((actuator_vel.1 / ar.1 + actuator_vel.2 / ar.2) / (2 * jr.1),
   (actuator_vel.1 / ar.1 - actuator_vel.2 / ar.2) / (2 * jr.2))

/-- `DifferentialTransmission::actuatorToJointPosition`: applies
`actuatorToJointVelocity` to the position values, then adds
`joint_offset_[0]` and `joint_offset_[1]` to the two outputs. -/
def actuatorToJointPosition (t : DifferentialTransmission) (actuator_pos : ℚ × ℚ) : ℚ × ℚ :=
  let v := actuatorToJointVelocity t actuator_pos
  (v.1 + t.joint_offset.1, v.2 + t.joint_offset.2)

/-- `DifferentialTransmission::jointToActuatorEffort`:
`*actuator_eff[0] = (*joint_eff[0] / jr[0] + *joint_eff[1] / jr[1]) / (2.0 * ar[0])`,
`*actuator_eff[1] = (*joint_eff[0] / jr[0] - *joint_eff[1] / jr[1]) / (2.0 * ar[1])`. -/
def jointToActuatorEffort (t : DifferentialTransmission) (joint_eff : ℚ × ℚ) : ℚ × ℚ :=
  let ar := t.actuator_reduction
  let jr := t.joint_reduction
  ((joint_eff.1 / jr.1 + joint_eff.2 / jr.2) / (2 * ar.1),
   (joint_eff.1 / jr.1 - joint_eff.2 / jr.2) / (2 * ar.2))

/-- `DifferentialTransmission::jointToActuatorVelocity`:
`*actuator_vel[0] = (*joint_vel[0] * jr[0] + *joint_vel[1] * jr[1]) * ar[0]`,
`*actuator_vel[1] = (*joint_vel[0] * jr[0] - *joint_vel[1] * jr[1]) * ar[1]`. -/
def jointToActuatorVelocity (t : DifferentialTransmission) (joint_vel : ℚ × ℚ) : ℚ × ℚ :=
  let ar := t.actuator_reduction
  let jr := t.joint_reduction
  ((joint_vel.1 * jr.1 + joint_vel.2 * jr.2) * ar.1,
   (joint_vel.1 * jr.1 - joint_vel.2 * jr.2) * ar.2)

/-- `DifferentialTransmission::jointToActuatorPosition`: builds the
stack array `joint_pos_with_offset` holding the two joint positions
minus the two offsets, then applies `jointToActuatorVelocity` to it. -/
def jointToActuatorPosition (t : DifferentialTransmission) (joint_pos : ℚ × ℚ) : ℚ × ℚ :=
  let joint_pos_with_offset :=
    (joint_pos.1 - t.joint_offset.1, joint_pos.2 - t.joint_offset.2)
  jointToActuatorVelocity t joint_pos_with_offset

/-- Pointer-level model of `DifferentialTransmission::jointToActuatorPosition`
on a store `Nat -> Rat`.  `joint_pos` and `actuator_pos` are the addresses of
the caller's two read slots and two write slots.  The body first reads the two
joint positions and subtracts the offsets into the call-local stack array
`joint_pos_with_offset` (which the caller cannot alias), then performs the two
writes of `jointToActuatorVelocity` through `actuator_pos[0]` and
`actuator_pos[1]`, in that order, reading only from the stack array. -/
def jointToActuatorPositionMem (t : DifferentialTransmission)
    (joint_pos actuator_pos : ℕ × ℕ) (mem : ℕ → ℚ) : ℕ → ℚ :=
  let ar := t.actuator_reduction
  let jr := t.joint_reduction
  let tmp0 := mem joint_pos.1 - t.joint_offset.1
  let tmp1 := mem joint_pos.2 - t.joint_offset.2
  let mem1 := Function.update mem actuator_pos.1 ((tmp0 * jr.1 + tmp1 * jr.2) * ar.1)
  Function.update mem1 actuator_pos.2 ((tmp0 * jr.1 - tmp1 * jr.2) * ar.2)

/-- Example instance used by witnesses: actuator reductions (2, 3), joint
reductions (5, 7), joint offsets (1, 9); all reductions nonzero. -/
def exampleA : DifferentialTransmission := ⟨(2, 3), (5, 7), (1, 9)⟩

/-- Example instance agreeing with `exampleA` on both reduction pairs but
with different joint offsets. -/
def exampleB : DifferentialTransmission := ⟨(2, 3), (5, 7), (-4, 0)⟩

/-- Example store used by the aliasing witness. -/
def exampleMem : ℕ → ℚ := fun i => (i : ℚ) + 1

/-- Claim C1: for every instance built from nonzero reduction values, the
joint-to-actuator effort map computes the closed form in which the first
output component is divided by `2 * actuator_reduction[0]` and the second
output component by `2 * actuator_reduction[1]`. -/
theorem jointToActuatorEffort_closed_form (t : DifferentialTransmission)
    (ha0 : t.actuator_reduction.1 ≠ 0) (ha1 : t.actuator_reduction.2 ≠ 0)
    (hj0 : t.joint_reduction.1 ≠ 0) (hj1 : t.joint_reduction.2 ≠ 0)
    (joint_eff : ℚ × ℚ) :
    jointToActuatorEffort t joint_eff =
      ((joint_eff.1 / t.joint_reduction.1 + joint_eff.2 / t.joint_reduction.2) /
          (2 * t.actuator_reduction.1),
       (joint_eff.1 / t.joint_reduction.1 - joint_eff.2 / t.joint_reduction.2) /
          (2 * t.actuator_reduction.2)) := rfl

/-- Witness for claim C1: the closed form evaluated on `exampleA` at joint
efforts (2, 13). -/
theorem jointToActuatorEffort_closed_form_witness :
    (exampleA.actuator_reduction.1 ≠ 0 ∧ exampleA.actuator_reduction.2 ≠ 0 ∧
     exampleA.joint_reduction.1 ≠ 0 ∧ exampleA.joint_reduction.2 ≠ 0) ∧
    jointToActuatorEffort exampleA (2, 13) =
      (((2:ℚ) / 5 + 13 / 7) / (2 * 2), ((2:ℚ) / 5 - 13 / 7) / (2 * 3)) :=
  ⟨⟨by decide, by decide, by decide, by decide⟩,
   jointToActuatorEffort_closed_form exampleA
     (by decide) (by decide) (by decide) (by decide) (2, 13)⟩

/-- Counterexample to claim C2: with actuator reductions (1, 2), joint
reductions (1, 1) and joint efforts (0, 1), the second output component of
`jointToActuatorEffort` is -1/4, not the value -1/2 that a division by
`2 * actuator_reduction[0]` would give. -/
theorem jointToActuatorEffort_second_component_not_ar0 :
    (jointToActuatorEffort ⟨(1, 2), (1, 1), (0, 0)⟩ (0, 1)).2 ≠
      ((0:ℚ) / 1 - 1 / 1) / (2 * 1) := by
  simp only [jointToActuatorEffort]
  norm_num

/-- Claim C2 (amended): the joint-to-actuator effort map divides the first
output component by `2 * actuator_reduction[0]` and the second output
component by `2 * actuator_reduction[1]`, for every instance and input. -/
theorem jointToActuatorEffort_componentwise_denominators
    (t : DifferentialTransmission) (joint_eff : ℚ × ℚ) :
    (jointToActuatorEffort t joint_eff).1 =
      (joint_eff.1 / t.joint_reduction.1 + joint_eff.2 / t.joint_reduction.2) /
        (2 * t.actuator_reduction.1) ∧
    (jointToActuatorEffort t joint_eff).2 =
      (joint_eff.1 / t.joint_reduction.1 - joint_eff.2 / t.joint_reduction.2) /
        (2 * t.actuator_reduction.2) := ⟨rfl, rfl⟩

/-- Claim C3: for every instance with nonzero reductions and any offsets,
`jointToActuatorEffort` inverts `actuatorToJointEffort` exactly on every
pair of actuator efforts. -/
theorem effort_round_trip (t : DifferentialTransmission)
    (ha0 : t.actuator_reduction.1 ≠ 0) (ha1 : t.actuator_reduction.2 ≠ 0)
    (hj0 : t.joint_reduction.1 ≠ 0) (hj1 : t.joint_reduction.2 ≠ 0)
    (actuator_eff : ℚ × ℚ) :
    jointToActuatorEffort t (actuatorToJointEffort t actuator_eff) = actuator_eff := by
  obtain ⟨e0, e1⟩ := actuator_eff
  simp only [actuatorToJointEffort, jointToActuatorEffort, Prod.mk.injEq]
  constructor
  · field_simp
    ring
  · field_simp
    ring

/-- Witness for claim C3: the effort round trip on `exampleA` at actuator
efforts (4, -6). -/
theorem effort_round_trip_witness :
    (exampleA.actuator_reduction.1 ≠ 0 ∧ exampleA.actuator_reduction.2 ≠ 0 ∧
     exampleA.joint_reduction.1 ≠ 0 ∧ exampleA.joint_reduction.2 ≠ 0) ∧
    jointToActuatorEffort exampleA (actuatorToJointEffort exampleA (4, -6)) = (4, -6) :=
  ⟨⟨by decide, by decide, by decide, by decide⟩,
   effort_round_trip exampleA (by decide) (by decide) (by decide) (by decide) (4, -6)⟩

/-- Claim C4: for every instance with nonzero reductions and any offsets,
`jointToActuatorVelocity` inverts `actuatorToJointVelocity` exactly on
every pair of actuator velocities. -/
theorem velocity_round_trip (t : DifferentialTransmission)
    (ha0 : t.actuator_reduction.1 ≠ 0) (ha1 : t.actuator_reduction.2 ≠ 0)
    (hj0 : t.joint_reduction.1 ≠ 0) (hj1 : t.joint_reduction.2 ≠ 0)
    (actuator_vel : ℚ × ℚ) :
    jointToActuatorVelocity t (actuatorToJointVelocity t actuator_vel) = actuator_vel := by
  obtain ⟨v0, v1⟩ := actuator_vel
  simp only [actuatorToJointVelocity, jointToActuatorVelocity, Prod.mk.injEq]
  constructor
  · field_simp
    ring
  · field_simp
    ring

/-- Witness for claim C4: the velocity round trip on `exampleA` at actuator
velocities (10, -3). -/
theorem velocity_round_trip_witness :
    (exampleA.actuator_reduction.1 ≠ 0 ∧ exampleA.actuator_reduction.2 ≠ 0 ∧
     exampleA.joint_reduction.1 ≠ 0 ∧ exampleA.joint_reduction.2 ≠ 0) ∧
    jointToActuatorVelocity exampleA (actuatorToJointVelocity exampleA (10, -3)) = (10, -3) :=
  ⟨⟨by decide, by decide, by decide, by decide⟩,
   velocity_round_trip exampleA (by decide) (by decide) (by decide) (by decide) (10, -3)⟩

/-- Claim C5: for every instance with nonzero reductions and arbitrary
offsets, `jointToActuatorPosition` inverts `actuatorToJointPosition`
exactly on every pair of actuator positions: the offset added in one
direction is removed in the other. -/
theorem position_round_trip (t : DifferentialTransmission)
    (ha0 : t.actuator_reduction.1 ≠ 0) (ha1 : t.actuator_reduction.2 ≠ 0)
    (hj0 : t.joint_reduction.1 ≠ 0) (hj1 : t.joint_reduction.2 ≠ 0)
    (actuator_pos : ℚ × ℚ) :
    jointToActuatorPosition t (actuatorToJointPosition t actuator_pos) = actuator_pos := by
  obtain ⟨p0, p1⟩ := actuator_pos
  simp only [actuatorToJointPosition, jointToActuatorPosition, actuatorToJointVelocity,
    jointToActuatorVelocity, Prod.mk.injEq]
  constructor
  · field_simp
    ring
  · field_simp
    ring

/-- Witness for claim C5: the position round trip on `exampleA` (which has
nonzero offsets (1, 9)) at actuator positions (8, -5). -/
theorem position_round_trip_witness :
    (exampleA.actuator_reduction.1 ≠ 0 ∧ exampleA.actuator_reduction.2 ≠ 0 ∧
     exampleA.joint_reduction.1 ≠ 0 ∧ exampleA.joint_reduction.2 ≠ 0) ∧
    jointToActuatorPosition exampleA (actuatorToJointPosition exampleA (8, -5)) = (8, -5) :=
  ⟨⟨by decide, by decide, by decide, by decide⟩,
   position_round_trip exampleA (by decide) (by decide) (by decide) (by decide) (8, -5)⟩

/-- Claim C6: the two position maps are derived from the velocity maps:
actuator-to-joint position is the actuator-to-joint velocity map followed
by componentwise addition of the joint offset, and joint-to-actuator
position is the joint-to-actuator velocity map applied after subtracting
the joint offset componentwise. -/
theorem position_maps_derived_from_velocity_maps
    (t : DifferentialTransmission) (p : ℚ × ℚ) :
    actuatorToJointPosition t p =
      ((actuatorToJointVelocity t p).1 + t.joint_offset.1,
       (actuatorToJointVelocity t p).2 + t.joint_offset.2) ∧
    jointToActuatorPosition t p =
      jointToActuatorVelocity t (p.1 - t.joint_offset.1, p.2 - t.joint_offset.2) :=
  ⟨rfl, rfl⟩

/-- Claim C7: construction fails if and only if one of the three parameter
lists has length different from 2, or some actuator or joint reduction
value is zero; joint offset values are never themselves rejected (they do
not appear on the right-hand side except through the length check). -/
theorem mkDifferentialTransmission_error_iff (ar jr off : List ℚ) :
    (∃ msg, mkDifferentialTransmission ar jr off = Except.error msg) ↔
      (ar.length ≠ 2 ∨ jr.length ≠ 2 ∨ off.length ≠ 2 ∨ (0:ℚ) ∈ ar ∨ (0:ℚ) ∈ jr) := by
  by_cases hlen : ar.length ≠ 2 ∨ jr.length ≠ 2 ∨ off.length ≠ 2
  · rw [mkDifferentialTransmission, if_pos hlen]
    exact ⟨fun _ => by tauto, fun _ => ⟨_, rfl⟩⟩
  · push_neg at hlen
    obtain ⟨ha, hj, ho⟩ := hlen
    obtain ⟨a0, a1, rfl⟩ := List.length_eq_two.mp ha
    obtain ⟨j0, j1, rfl⟩ := List.length_eq_two.mp hj
    rw [mkDifferentialTransmission,
      if_neg (by push_neg; exact ⟨ha, hj, ho⟩)]
    by_cases hz : a0 = 0 ∨ a1 = 0 ∨ j0 = 0 ∨ j1 = 0
    · rw [if_pos (by simpa using hz)]
      simp only [List.mem_cons, List.not_mem_nil, or_false, ne_eq, ha, hj, ho,
        not_true_eq_false, false_or]
      constructor
      · intro _
        rcases hz with h | h | h | h <;> simp [h]
      · intro _
        exact ⟨_, rfl⟩
    · rw [if_neg (by simpa using hz)]
      push_neg at hz
      obtain ⟨hz0, hz1, hz2, hz3⟩ := hz
      simp only [List.mem_cons, List.not_mem_nil, or_false, ne_eq, ha, hj, ho,
        not_true_eq_false, false_or]
      constructor
      · rintro ⟨msg, h⟩
        exact absurd h (by simp)
      · rintro (h | h | h | h) <;> simp_all [eq_comm]

/-- Claim C8: on the store model, `jointToActuatorPosition` leaves both
joint-position input slots unchanged whenever they do not alias the
actuator-position output slots: the offset subtraction happens only in the
call-local workspace. -/
theorem jointToActuatorPositionMem_preserves_inputs
    (t : DifferentialTransmission) (joint_pos actuator_pos : ℕ × ℕ) (mem : ℕ → ℚ)
    (h1 : joint_pos.1 ≠ actuator_pos.1) (h2 : joint_pos.1 ≠ actuator_pos.2)
    (h3 : joint_pos.2 ≠ actuator_pos.1) (h4 : joint_pos.2 ≠ actuator_pos.2) :
    jointToActuatorPositionMem t joint_pos actuator_pos mem joint_pos.1 = mem joint_pos.1 ∧
    jointToActuatorPositionMem t joint_pos actuator_pos mem joint_pos.2 = mem joint_pos.2 := by
  simp only [jointToActuatorPositionMem]
  constructor
  · rw [Function.update_noteq h2, Function.update_noteq h1]
  · rw [Function.update_noteq h4, Function.update_noteq h3]

/-- Witness for claim C8: with input slots at addresses 0 and 1 and output
slots at addresses 2 and 3, the two input values are unchanged. -/
theorem jointToActuatorPositionMem_preserves_inputs_witness :
    (((0, 1) : ℕ × ℕ).1 ≠ ((2, 3) : ℕ × ℕ).1 ∧ ((0, 1) : ℕ × ℕ).1 ≠ ((2, 3) : ℕ × ℕ).2 ∧
     ((0, 1) : ℕ × ℕ).2 ≠ ((2, 3) : ℕ × ℕ).1 ∧ ((0, 1) : ℕ × ℕ).2 ≠ ((2, 3) : ℕ × ℕ).2) ∧
    (jointToActuatorPositionMem exampleA (0, 1) (2, 3) exampleMem 0 = exampleMem 0 ∧
     jointToActuatorPositionMem exampleA (0, 1) (2, 3) exampleMem 1 = exampleMem 1) :=
  ⟨⟨by decide, by decide, by decide, by decide⟩,
   jointToActuatorPositionMem_preserves_inputs exampleA (0, 1) (2, 3) exampleMem
     (by decide) (by decide) (by decide) (by decide)⟩

/-- Claim C9: for the instance built from actuator reductions [2, 2],
joint reductions [1, 1] and offsets [0, 0] (which construction accepts),
actuator velocities (2, 2) map to joint velocities (1, 0), and joint
velocities (1, 0) map back to actuator velocities (2, 2). -/
theorem velocity_concrete_scenario :
    mkDifferentialTransmission [2, 2] [1, 1] [0, 0] =
      Except.ok ⟨(2, 2), (1, 1), (0, 0)⟩ ∧
    actuatorToJointVelocity ⟨(2, 2), (1, 1), (0, 0)⟩ (2, 2) = (1, 0) ∧
    jointToActuatorVelocity ⟨(2, 2), (1, 1), (0, 0)⟩ (1, 0) = (2, 2) := by
  refine ⟨?_, ?_, ?_⟩
  · rfl
  · simp only [actuatorToJointVelocity, Prod.mk.injEq]
    norm_num
  · simp only [jointToActuatorVelocity, Prod.mk.injEq]
    norm_num

/-- Claim C10: the four effort and velocity conversions never read the
joint offsets: two instances agreeing on both reduction pairs produce
identical outputs on every input, whatever their offsets. -/
theorem effort_velocity_offset_independent
    (t t' : DifferentialTransmission)
    (har : t.actuator_reduction = t'.actuator_reduction)
    (hjr : t.joint_reduction = t'.joint_reduction) (x : ℚ × ℚ) :
    actuatorToJointEffort t x = actuatorToJointEffort t' x ∧
    jointToActuatorEffort t x = jointToActuatorEffort t' x ∧
    actuatorToJointVelocity t x = actuatorToJointVelocity t' x ∧
    jointToActuatorVelocity t x = jointToActuatorVelocity t' x := by
  refine ⟨?_, ?_, ?_, ?_⟩ <;>
    simp [actuatorToJointEffort, jointToActuatorEffort, actuatorToJointVelocity,
      jointToActuatorVelocity, har, hjr]

/-- Witness for claim C10: `exampleA` and `exampleB` share reductions but
have offsets (1, 9) and (-4, 0); the four maps agree at (4, -6). -/
theorem effort_velocity_offset_independent_witness :
    (exampleA.actuator_reduction = exampleB.actuator_reduction ∧
     exampleA.joint_reduction = exampleB.joint_reduction) ∧
    (actuatorToJointEffort exampleA (4, -6) = actuatorToJointEffort exampleB (4, -6) ∧
     jointToActuatorEffort exampleA (4, -6) = jointToActuatorEffort exampleB (4, -6) ∧
     actuatorToJointVelocity exampleA (4, -6) = actuatorToJointVelocity exampleB (4, -6) ∧
     jointToActuatorVelocity exampleA (4, -6) = jointToActuatorVelocity exampleB (4, -6)) :=
  ⟨⟨by decide, by decide⟩,
   effort_velocity_offset_independent exampleA exampleB (by decide) (by decide) (4, -6)⟩

end TransmissionInterface
